import Mathlib

/-!
Shallow embedding of `ec2_underutilized_report.py` (class `EC2UtilizationReport`)
and proofs about its behaviour.

Python floats are modelled as exact rationals (`ℚ`); `round(x, 2)` is modelled
by `round2`.  External AWS calls (EC2 describe/paginate, CloudWatch
`get_metric_statistics`, tag lookup, SMTP, the filesystem) are modelled as
explicit inputs: each fallible upstream call is an `Except String` value, so a
`.error` input plays the role of the call raising an exception.
-/

namespace EC2Report

/-- Python `round(x, 2)` on an exact rational: round to the nearest multiple of
1/100 (ties as in Mathlib `round`; no claim below depends on tie behaviour). -/
def round2 (q : ℚ) : ℚ := ((round (q * 100) : ℤ) : ℚ) / 100

/-! ### Recommendation strings (source lines 241-250)

The source file stores each leading emoji as cp1252-mojibake characters; the
string literals below reproduce the file's code points exactly. -/

def REC_IDLE : String :=
  "ðŸ”¥ Consider stopping or terminating this idle instance"

def REC_DOWNSIZE : String :=
  "ðŸ”„ Downsize to a smaller instance type (e.g., t3.micro)"

def REC_SPOT : String :=
  "ðŸ’° Consider switching to a cost-effective Spot Instance"

def REC_HIGH : String :=
  "âš ï¸ High usage - review and possibly upgrade"

def REC_MONITOR : String :=
  "ðŸ“Š Monitor further - utilization looks reasonable"

/-- `generate_recommendation` (source lines 227-250): ordered if/elif/else
chain over CPU and memory utilization; the two network parameters are accepted
but unused, exactly as in the source. -/
def generate_recommendation (cpu_util mem_util network_in network_out : ℚ) : String :=
  if cpu_util < 5 ∧ mem_util < 20 then REC_IDLE
  else if cpu_util < 10 ∧ mem_util < 30 then REC_DOWNSIZE
  else if cpu_util < 20 ∧ mem_util < 40 then REC_SPOT
  else if cpu_util > 80 ∨ mem_util > 80 then REC_HIGH
  else REC_MONITOR

/-- C1: the classifier is an ordered if/else chain where the first matching
condition wins: it returns the stop/terminate string iff `cpu < 5 ∧ mem < 20`;
otherwise the downsize string iff `cpu < 10 ∧ mem < 30`; otherwise the spot
string iff `cpu < 20 ∧ mem < 40`; otherwise the high-usage string iff
`cpu > 80 ∨ mem > 80`; otherwise the monitor string.  All comparisons strict;
in particular `cpu = 5, mem = 19` yields the downsize recommendation. -/
theorem c1_classifier_chain (c m n1 n2 : ℚ) :
    (generate_recommendation c m n1 n2 = REC_IDLE ↔ c < 5 ∧ m < 20) ∧
    (generate_recommendation c m n1 n2 = REC_DOWNSIZE ↔
      ¬(c < 5 ∧ m < 20) ∧ (c < 10 ∧ m < 30)) ∧
    (generate_recommendation c m n1 n2 = REC_SPOT ↔
      ¬(c < 5 ∧ m < 20) ∧ ¬(c < 10 ∧ m < 30) ∧ (c < 20 ∧ m < 40)) ∧
    (generate_recommendation c m n1 n2 = REC_HIGH ↔
      ¬(c < 5 ∧ m < 20) ∧ ¬(c < 10 ∧ m < 30) ∧ ¬(c < 20 ∧ m < 40) ∧
        (c > 80 ∨ m > 80)) ∧
    (generate_recommendation c m n1 n2 = REC_MONITOR ↔
      ¬(c < 5 ∧ m < 20) ∧ ¬(c < 10 ∧ m < 30) ∧ ¬(c < 20 ∧ m < 40) ∧
        ¬(c > 80 ∨ m > 80)) ∧
    generate_recommendation 5 19 n1 n2 = REC_DOWNSIZE := by
  have d12 : REC_IDLE ≠ REC_DOWNSIZE := by decide
  have d13 : REC_IDLE ≠ REC_SPOT := by decide
  have d14 : REC_IDLE ≠ REC_HIGH := by decide
  have d15 : REC_IDLE ≠ REC_MONITOR := by decide
  have d23 : REC_DOWNSIZE ≠ REC_SPOT := by decide
  have d24 : REC_DOWNSIZE ≠ REC_HIGH := by decide
  have d25 : REC_DOWNSIZE ≠ REC_MONITOR := by decide
  have d34 : REC_SPOT ≠ REC_HIGH := by decide
  have d35 : REC_SPOT ≠ REC_MONITOR := by decide
  have d45 : REC_HIGH ≠ REC_MONITOR := by decide
  have d21 := d12.symm
  have d31 := d13.symm
  have d41 := d14.symm
  have d51 := d15.symm
  have d32 := d23.symm
  have d42 := d24.symm
  have d52 := d25.symm
  have d43 := d34.symm
  have d53 := d35.symm
  have d54 := d45.symm
  have hb : generate_recommendation 5 19 n1 n2 = REC_DOWNSIZE := by
    unfold generate_recommendation
    norm_num
  refine ⟨?_, ?_, ?_, ?_, ?_, hb⟩ <;>
    · unfold generate_recommendation
      split_ifs with h1 h2 h3 h4 <;> simp_all

/-- C3: the two network parameters are dead - the classifier result never
depends on them - and for `0 ≤ cpu < 5`, `0 ≤ mem < 20` it returns the
stop/terminate recommendation regardless of the network values. -/
theorem c3_network_params_dead (c m n1 n2 n1' n2' : ℚ) :
    generate_recommendation c m n1 n2 = generate_recommendation c m n1' n2' ∧
    (0 ≤ c → c < 5 → 0 ≤ m → m < 20 →
      generate_recommendation c m n1 n2 = REC_IDLE) := by
  constructor
  · rfl
  · intro _ hc _ hm
    unfold generate_recommendation
    rw [if_pos ⟨hc, hm⟩]

/-- Witness for C3 at cpu = 3, mem = 10 and two different network pairs. -/
theorem c3_witness :
    generate_recommendation 3 10 7 8 = generate_recommendation 3 10 100 200 ∧
    generate_recommendation 3 10 7 8 = REC_IDLE :=
  ⟨(c3_network_params_dead 3 10 7 8 100 200).1,
   (c3_network_params_dead 3 10 7 8 100 200).2
     (by norm_num) (by norm_num) (by norm_num) (by norm_num)⟩

/-! ### AWS inventory response shapes (keys as in the boto3 responses) -/

structure InstanceState where
  Name : String
  deriving DecidableEq

structure Ec2Instance where
  InstanceId : String
  State : InstanceState
  InstanceType : String
  deriving DecidableEq

structure Reservation where
  Instances : List Ec2Instance
  deriving DecidableEq

structure DescribeInstancesPage where
  Reservations : List Reservation
  deriving DecidableEq

/-- `get_all_instance_ids` (source lines 63-84): iterate over every page of
`describe_instances`, every reservation and every instance, appending the id
of each instance whose state name is "running"; any exception from the call is
caught, logged and turned into `[]`.  The paginator outcome is the explicit
`Except` input. -/
def get_all_instance_ids
    (resp : Except String (List DescribeInstancesPage)) : List String :=
  match resp with
  | .error _ => []
  | .ok pages =>
    pages.foldl (fun acc page =>
      page.Reservations.foldl (fun acc reservation =>
        reservation.Instances.foldl (fun acc inst =>
          if inst.State.Name = "running" then acc ++ [inst.InstanceId] else acc)
          acc)
        acc)
      []

lemma foldl_instances_eq (l : List Ec2Instance) (acc : List String) :
    l.foldl (fun acc inst =>
        if inst.State.Name = "running" then acc ++ [inst.InstanceId] else acc)
      acc =
      acc ++ ((l.filter fun i => i.State.Name == "running").map
        Ec2Instance.InstanceId) := by
  induction l generalizing acc with
  | nil => simp
  | cons hd tl ih =>
    by_cases h : hd.State.Name = "running" <;>
      simp [List.foldl_cons, List.filter_cons, h, ih]

lemma foldl_reservations_eq (l : List Reservation) (acc : List String) :
    l.foldl (fun acc reservation =>
        reservation.Instances.foldl (fun acc inst =>
          if inst.State.Name = "running" then acc ++ [inst.InstanceId] else acc)
          acc)
      acc =
      acc ++ (((l.flatMap Reservation.Instances).filter
        fun i => i.State.Name == "running").map Ec2Instance.InstanceId) := by
  induction l generalizing acc with
  | nil => simp
  | cons hd tl ih =>
    rw [List.foldl_cons, foldl_instances_eq, ih, List.flatMap_cons,
      List.filter_append, List.map_append, List.append_assoc]

lemma foldl_pages_eq (l : List DescribeInstancesPage) (acc : List String) :
    l.foldl (fun acc page =>
      page.Reservations.foldl (fun acc reservation =>
        reservation.Instances.foldl (fun acc inst =>
          if inst.State.Name = "running" then acc ++ [inst.InstanceId] else acc)
          acc)
        acc)
      acc =
      acc ++ ((((l.flatMap DescribeInstancesPage.Reservations).flatMap
        Reservation.Instances).filter
          fun i => i.State.Name == "running").map Ec2Instance.InstanceId) := by
  induction l generalizing acc with
  | nil => simp
  | cons hd tl ih =>
    rw [List.foldl_cons, foldl_reservations_eq, ih, List.flatMap_cons,
      List.flatMap_append, List.filter_append, List.map_append,
      List.append_assoc]

/-- C6: the inventory lister returns, in discovery order across all pages,
exactly the ids of instances whose state is "running"; on a failure of the
underlying call it returns the empty list. -/
theorem c6_running_instances_only
    (e : String) (pages : List DescribeInstancesPage) :
    get_all_instance_ids (.error e) = [] ∧
    get_all_instance_ids (.ok pages) =
      ((((pages.flatMap DescribeInstancesPage.Reservations).flatMap
        Reservation.Instances).filter
          fun i => i.State.Name == "running").map Ec2Instance.InstanceId) := by
  refine ⟨rfl, ?_⟩
  simpa using foldl_pages_eq pages []

/-! ### Tag lookup -/

structure TagDescription where
  ResourceId : String
  Key : String
  Value : String
  deriving DecidableEq

/-- AWS-side semantics of the `describe_tags` call with the two filters the
code passes (source lines 97-102): keep exactly the tag records whose
`ResourceId` is among `resourceIds` and whose `Key` is among `keys`. -/
def describe_tags_call (allTags : List TagDescription)
    (resourceIds keys : List String) : List TagDescription :=
  allTags.filter fun t =>
    resourceIds.contains t.ResourceId && keys.contains t.Key

/-- `get_instance_name` (source lines 86-116).  The happy path filters by
`resource-id = [instance_id]` and `key = ["Name"]` and returns the first
match's `Value`, or "N/A" when no tag matches.  The except-handler as written
calls `re.sub` while the `import re` line is commented out, so an exception
from `describe_tags` leads to a `NameError` escaping the function instead of
the documented "N/A" (the surrounding duplicated lines 107-116 are in fact a
syntax error in the file).  `tagsFetchError = some e` models `describe_tags`
raising. -/
def get_instance_name (tagsFetchError : Option String)
    (allTags : List TagDescription) (instance_id : String) :
    Except String String :=
  match tagsFetchError with
  | some _ => .error "NameError: name re is not defined"
  | none =>
    match describe_tags_call allTags [instance_id] ["Name"] with
    | [] => .ok "N/A"
    | t :: _ => .ok t.Value

/-- C2 (code bug): on the happy path the lookup filters by resource id and key
"Name" and returns the first match's value, or "N/A" when nothing matches; but
when the underlying call raises, the function as written raises `NameError`
(its handler uses `re` whose import is commented out) instead of returning
"N/A". -/
theorem c2_name_lookup_handler_raises :
    get_instance_name (some "boom") [] "i-0abc" =
      .error "NameError: name re is not defined" ∧
    get_instance_name (some "boom") [] "i-0abc" ≠ .ok "N/A" ∧
    get_instance_name none [] "i-0abc" = .ok "N/A" ∧
    get_instance_name none
      [⟨"i-0abc", "Name", "web-server"⟩, ⟨"i-0abc", "Name", "second"⟩]
      "i-0abc" = .ok "web-server" ∧
    get_instance_name none
      [⟨"i-other", "Name", "x"⟩, ⟨"i-0abc", "env", "prod"⟩]
      "i-0abc" = .ok "N/A" := by
  refine ⟨rfl, by simp [get_instance_name], rfl, rfl, rfl⟩

/-- `get_instance_type` (source lines 118-133):
`response.Reservations[0].Instances[0].InstanceType`, with any exception
(including the IndexError on an empty list) caught and turned into
"Unknown". -/
def get_instance_type (resp : Except String (List Reservation)) : String :=
  match resp with
  | .error _ => "Unknown"
  | .ok [] => "Unknown"
  | .ok (r :: _) =>
    match r.Instances with
    | [] => "Unknown"
    | inst :: _ => inst.InstanceType

/-! ### CloudWatch statistic fetch -/

/-- A CloudWatch datapoint: a record mapping statistic names to values. -/
abbrev Datapoint := List (String × ℚ)

/-- The request `get_cloudwatch_metric` builds (source lines 149-161).  The
real code computes `StartTime = utcnow - 7 days`, `EndTime = utcnow`; real
time is outside the embedding, so the trailing window is recorded as
`windowDays`. -/
structure MetricRequest where
  Namespace : String
  MetricName : String
  Dimensions : List (String × String)
  windowDays : Nat
  Period : Nat
  Statistics : List String
  deriving DecidableEq

def cloudwatch_request
    (instance_id metric_name namespace_arg statistic : String) :
    MetricRequest :=
  { Namespace := namespace_arg
    MetricName := metric_name
    Dimensions := [("InstanceId", instance_id)]
    windowDays := 7
    Period := 604800
    Statistics := [statistic] }

/-- `get_cloudwatch_metric` (source lines 135-168): returns the first
datapoint's value for the requested statistic, 0 when there are no
datapoints, and 0 when the call raises (a missing statistic key would be a
KeyError, caught by the same handler, hence also 0). -/
def get_cloudwatch_metric
    (fetch : MetricRequest → Except String (List Datapoint))
    (instance_id metric_name namespace_arg statistic : String) : ℚ :=
  match fetch (cloudwatch_request instance_id metric_name namespace_arg
      statistic) with
  | .error _ => 0
  | .ok [] => 0
  | .ok (dp :: _) =>
    match dp.lookup statistic with
    | some v => v
    | none => 0

/-- The Python default argument `statistic = "Average"` (source line 136). -/
def get_cloudwatch_metric_default
    (fetch : MetricRequest → Except String (List Datapoint))
    (instance_id metric_name namespace_arg : String) : ℚ :=
  get_cloudwatch_metric fetch instance_id metric_name namespace_arg "Average"

/-- C4: the statistic fetch requests a 7-day trailing window with period
604800 and the single named statistic (default "Average"); it returns the
first datapoint's value for that statistic, 0 when no datapoint exists, and 0
when the call raises. -/
theorem c4_cloudwatch_metric
    (i mn ns st e : String) (v : ℚ) (more : Datapoint)
    (rest : List Datapoint)
    (fetch : MetricRequest → Except String (List Datapoint)) :
    (cloudwatch_request i mn ns st).Period = 604800 ∧
    (cloudwatch_request i mn ns st).windowDays = 7 ∧
    (cloudwatch_request i mn ns st).Statistics = [st] ∧
    (cloudwatch_request i mn ns st).MetricName = mn ∧
    (cloudwatch_request i mn ns st).Namespace = ns ∧
    get_cloudwatch_metric (fun _ => .error e) i mn ns st = 0 ∧
    get_cloudwatch_metric (fun _ => .ok []) i mn ns st = 0 ∧
    get_cloudwatch_metric (fun _ => .ok (((st, v) :: more) :: rest))
      i mn ns st = v ∧
    get_cloudwatch_metric_default fetch i mn ns =
      get_cloudwatch_metric fetch i mn ns "Average" := by
  refine ⟨rfl, rfl, rfl, rfl, rfl, rfl, rfl, ?_, rfl⟩
  simp [get_cloudwatch_metric, List.lookup]

/-! ### Per-instance collection -/

structure InstanceReport where
  instance_id : String
  name : String
  instance_type : String
  cpu_util : ℚ
  mem_util : ℚ
  network_in : ℚ
  network_out : ℚ
  disk_read : ℚ
  disk_write : ℚ
  recommendation : String
  deriving DecidableEq

/-- The external world one run sees: the upstream AWS calls, the CSV file read
back for the email attachment, and whether the SMTP connection succeeds.  An
`Except.error` input models the corresponding call raising. -/
structure Env where
  pages : Except String (List DescribeInstancesPage)
  tagsFetchError : Option String
  allTags : List TagDescription
  describeInstance : String → Except String (List Reservation)
  metrics : MetricRequest → Except String (List Datapoint)
  csvRead : Except String (List Nat)
  smtpOk : Bool

/-- `get_instance_metrics` (source lines 170-225): fetch name, type and the
six statistics, round the percentages, convert the byte metrics to MB and
round, then classify.  As written the name lookup can raise (see
`get_instance_name`), so the result is an `Except`. -/
def get_instance_metrics (env : Env) (instance_id : String) :
    Except String InstanceReport := do
  let name_tag ← get_instance_name env.tagsFetchError env.allTags instance_id
  let instance_type := get_instance_type (env.describeInstance instance_id)
  let cpu_util :=
    get_cloudwatch_metric_default env.metrics instance_id "CPUUtilization"
      "AWS/EC2"
  let mem_util :=
    get_cloudwatch_metric_default env.metrics instance_id "mem_used_percent"
      "CWAgent"
  let network_in :=
    get_cloudwatch_metric_default env.metrics instance_id "NetworkIn" "AWS/EC2"
  let network_out :=
    get_cloudwatch_metric_default env.metrics instance_id "NetworkOut"
      "AWS/EC2"
  let disk_read :=
    get_cloudwatch_metric_default env.metrics instance_id "DiskReadBytes"
      "AWS/EC2"
  let disk_write :=
    get_cloudwatch_metric_default env.metrics instance_id "DiskWriteBytes"
      "AWS/EC2"
  let cpu_util := round2 cpu_util
  let mem_util := round2 mem_util
  let network_in := round2 (network_in / (1024 * 1024))
  let network_out := round2 (network_out / (1024 * 1024))
  let disk_read := round2 (disk_read / (1024 * 1024))
  let disk_write := round2 (disk_write / (1024 * 1024))
  let recommendation :=
    generate_recommendation cpu_util mem_util network_in network_out
  return {
    instance_id := instance_id
    name := name_tag
    instance_type := instance_type
    cpu_util := cpu_util
    mem_util := mem_util
    network_in := network_in
    network_out := network_out
    disk_read := disk_read
    disk_write := disk_write
    recommendation := recommendation }

/-- An environment for C5 where every call succeeds: no tags, one reservation
with one instance of type t3.micro, and each CloudWatch metric backed by one
datapoint holding the given raw value. -/
def metricsOnlyEnv (cpu mem ni no dr dw : ℚ) : Env :=
  { pages := .ok []
    tagsFetchError := none
    allTags := []
    describeInstance := fun _ => .ok [⟨[⟨"i-01", ⟨"running"⟩, "t3.micro"⟩]⟩]
    metrics := fun req =>
      if req.MetricName = "CPUUtilization" then .ok [[("Average", cpu)]]
      else if req.MetricName = "mem_used_percent" then .ok [[("Average", mem)]]
      else if req.MetricName = "NetworkIn" then .ok [[("Average", ni)]]
      else if req.MetricName = "NetworkOut" then .ok [[("Average", no)]]
      else if req.MetricName = "DiskReadBytes" then .ok [[("Average", dr)]]
      else if req.MetricName = "DiskWriteBytes" then .ok [[("Average", dw)]]
      else .ok []
    csvRead := .ok []
    smtpOk := true }

/-- C5: byte-valued metrics are divided by 1024*1024 = 1048576 and then
rounded to 2 decimals, percentage metrics are rounded to 2 decimals with no
conversion, and a raw byte value of 1048576 converts to exactly 1. -/
theorem c5_unit_conversion_and_rounding (cpu mem ni no dr dw : ℚ) :
    get_instance_metrics (metricsOnlyEnv cpu mem ni no dr dw) "i-01" =
      .ok { instance_id := "i-01"
            name := "N/A"
            instance_type := "t3.micro"
            cpu_util := round2 cpu
            mem_util := round2 mem
            network_in := round2 (ni / (1024 * 1024))
            network_out := round2 (no / (1024 * 1024))
            disk_read := round2 (dr / (1024 * 1024))
            disk_write := round2 (dw / (1024 * 1024))
            recommendation :=
              generate_recommendation (round2 cpu) (round2 mem)
                (round2 (ni / (1024 * 1024)))
                (round2 (no / (1024 * 1024))) } ∧
    (1024 * 1024 : ℚ) = 1048576 ∧
    round2 ((1048576 : ℚ) / (1024 * 1024)) = 1 := by
  refine ⟨rfl, by norm_num, ?_⟩
  norm_num [round2]

/-- `collect_all_instances_data` (source lines 252-262): fetch metrics for
each listed id in order; an exception from any per-instance fetch propagates
out of the loop. -/
def collect_all_instances_data (env : Env) :
    Except String (List InstanceReport) :=
  (get_all_instance_ids env.pages).mapM (get_instance_metrics env)

/-! ### CSV emitter -/

/-- One CSV field as handed to `csv.DictWriter`: the string-valued columns and
the numeric columns. -/
inductive CsvCell where
  | str (s : String)
  | num (q : ℚ)
  deriving DecidableEq

/-- The `fieldnames` header row (source lines 270-273). -/
def csv_header : List CsvCell :=
  [.str "Instance ID", .str "Instance Type", .str "CPU Utilization (%)",
   .str "Memory Utilization (%)", .str "Network In (MB)",
   .str "Network Out (MB)", .str "Disk Read (MB)", .str "Disk Write (MB)",
   .str "Name", .str "Recommendation"]

/-- One data row (source lines 278-289), in the `fieldnames` column order. -/
def csv_row (r : InstanceReport) : List CsvCell :=
  [.str r.instance_id, .str r.instance_type, .num r.cpu_util,
   .num r.mem_util, .num r.network_in, .num r.network_out, .num r.disk_read,
   .num r.disk_write, .str r.name, .str r.recommendation]

def csv_rows (data : List InstanceReport) : List (List CsvCell) :=
  csv_header :: data.map csv_row

/-- The filesystem as a map from path to file content (a written CSV file is
its list of rows; each row is one line). -/
abbrev FileSystem := String → Option (List (List CsvCell))

/-- `generate_csv_report` (source lines 264-292): mode "w" truncates whatever
was at the path; header then one row per report in collection order; any
exception is caught and logged, leaving the filesystem as it was
(`openOk = false` models `open` raising). -/
def generate_csv_report (fs : FileSystem) (csv_file : String)
    (openOk : Bool) (data : List InstanceReport) : FileSystem :=
  if openOk then
    fun p => if p = csv_file then some (csv_rows data) else fs p
  else fs

/-- C7: the CSV emitter writes exactly one header row with the ten labels in
fixed order followed by one row per report in collection order - `N + 1` rows
in total - overwriting whatever the path held before; an open failure is
absorbed and changes nothing. -/
theorem c7_csv_shape (fs : FileSystem) (csv_file : String)
    (data : List InstanceReport) :
    generate_csv_report fs csv_file true data csv_file =
      some (csv_rows data) ∧
    csv_rows data = csv_header :: data.map csv_row ∧
    (csv_rows data).length = data.length + 1 ∧
    csv_header = [.str "Instance ID", .str "Instance Type",
      .str "CPU Utilization (%)", .str "Memory Utilization (%)",
      .str "Network In (MB)", .str "Network Out (MB)", .str "Disk Read (MB)",
      .str "Disk Write (MB)", .str "Name", .str "Recommendation"] ∧
    generate_csv_report fs csv_file false data = fs := by
  refine ⟨?_, rfl, by simp [csv_rows], rfl, rfl⟩
  simp [generate_csv_report]

/-! ### HTML renderer: badges and cells (source lines 326-356) -/

def span_badge (cls content : String) : String :=
  "<span class=\x27" ++ cls ++ "\x27>" ++ content ++ "</span>"

/-- CPU badge class (source lines 328-333): the if/elif chain that picks which
of the three f-strings is produced. -/
def cpu_badge_class (cpu_util : ℚ) : String :=
  if cpu_util < 10 then "badge-critical"
  else if cpu_util < 30 then "badge-warning"
  else "badge-good"

/-- The CPU cell: the utilization value (rendered by `disp`) plus "%", wrapped
in the span of the chosen class. -/
def cpu_badge (disp : ℚ → String) (cpu_util : ℚ) : String :=
  span_badge (cpu_badge_class cpu_util) (disp cpu_util ++ "%")

/-- Memory badge class (source lines 336-339): only two tiers. -/
def mem_badge_class (mem_util : ℚ) : String :=
  if mem_util < 30 then "badge-warning" else "badge-good"

def mem_badge (disp : ℚ → String) (mem_util : ℚ) : String :=
  span_badge (mem_badge_class mem_util) (disp mem_util ++ "%")

/-- Network cell (source line 342): plain "in / out", no badge. -/
def network_cell (disp : ℚ → String) (r : InstanceReport) : String :=
  disp r.network_in ++ " / " ++ disp r.network_out

/-- Disk cell (source line 343): plain "read / write", no badge. -/
def disk_cell (disp : ℚ → String) (r : InstanceReport) : String :=
  disp r.disk_read ++ " / " ++ disp r.disk_write

/-- One table row of `generate_html_content` (source lines 345-356), with the
inter-tag whitespace elided. -/
def html_row (disp : ℚ → String) (r : InstanceReport) : String :=
  "<tr><td>" ++ r.instance_id ++ "</td><td>" ++ r.instance_type ++
    "</td><td>" ++ cpu_badge disp r.cpu_util ++ "</td><td>" ++
    mem_badge disp r.mem_util ++ "</td><td>" ++ network_cell disp r ++
    "</td><td>" ++ disk_cell disp r ++ "</td><td>" ++ r.name ++
    "</td><td>" ++ r.recommendation ++ "</td></tr>"

/-- The concatenation of all table rows, in collection order. -/
def html_rows (disp : ℚ → String) (data : List InstanceReport) : String :=
  String.join (data.map (html_row disp))

/-- C8: the CPU value is wrapped in a "critical" badge iff cpu < 10, a
"warning" badge iff 10 ≤ cpu < 30, a "good" badge otherwise; the memory value
is wrapped in a "warning" badge iff mem < 30 and a "good" badge otherwise
(never "critical"); network and disk render as "in / out" and "read / write"
with no badge. -/
theorem c8_html_badges (disp : ℚ → String) (c m : ℚ) (r : InstanceReport) :
    (cpu_badge_class c = "badge-critical" ↔ c < 10) ∧
    (cpu_badge_class c = "badge-warning" ↔ 10 ≤ c ∧ c < 30) ∧
    (cpu_badge_class c = "badge-good" ↔ 30 ≤ c) ∧
    (mem_badge_class m = "badge-warning" ↔ m < 30) ∧
    (mem_badge_class m = "badge-good" ↔ 30 ≤ m) ∧
    mem_badge_class m ≠ "badge-critical" ∧
    cpu_badge disp c = span_badge (cpu_badge_class c) (disp c ++ "%") ∧
    mem_badge disp m = span_badge (mem_badge_class m) (disp m ++ "%") ∧
    network_cell disp r = disp r.network_in ++ " / " ++ disp r.network_out ∧
    disk_cell disp r = disp r.disk_read ++ " / " ++ disp r.disk_write := by
  refine ⟨?_, ?_, ?_, ?_, ?_, ?_, rfl, rfl, rfl, rfl⟩ <;>
    · simp only [cpu_badge_class, mem_badge_class]
      split_ifs <;> simp_all <;> linarith

/-! ### Email sender -/

structure EmailMsg where
  fromAddr : String
  toAddr : String
  subject : String
  htmlBody : String
  attachment : List Nat
  attachmentFilename : String
  deriving DecidableEq

/-- `send_email_report` (source lines 366-400), as the list of messages handed
to the SMTP transport.  The CSV file is read before the SMTP connection is
opened, so when the read raises, the handler catches it and nothing is ever
handed over - the HTML body is not delivered on its own; when the SMTP
connection or send raises, nothing is delivered either.  The attachment keeps
the file bytes and the file's basename. -/
def send_email_report (html_content to_email subject : String)
    (csvRead : Except String (List Nat)) (csvBasename : String)
    (smtpOk : Bool) : List EmailMsg :=
  match csvRead with
  | .error _ => []
  | .ok fileBytes =>
    if smtpOk then
      [{ fromAddr := "ec2-report@example.com"
         toAddr := to_email
         subject := subject
         htmlBody := html_content
         attachment := fileBytes
         attachmentFilename := csvBasename }]
    else []

/-! ### Pipeline and exit codes -/

inductive RunOutcome where
  | normal
  | keyboardInterrupt
  | exception (msg : String)
  deriving DecidableEq

/-- `main` (source lines 417-427): plain completion exits 0; the
KeyboardInterrupt handler and the catch-all handler both call
`sys.exit(1)`. -/
def mainExitCode : RunOutcome → Nat
  | .normal => 0
  | .keyboardInterrupt => 1
  | .exception _ => 1

/-- `run` (source lines 402-414): collect, write the CSV, send the email.  The
CSV and email stages absorb their own exceptions; the only stage that can
raise is collection (through the as-written `get_instance_name`, see C2). -/
def run (env : Env) (fs : FileSystem)
    (csv_file to_email subject : String) (csvOpenOk : Bool)
    (disp : ℚ → String) : RunOutcome × FileSystem × List EmailMsg :=
  match collect_all_instances_data env with
  | .error msg => (.exception msg, fs, [])
  | .ok data =>
    let fs2 := generate_csv_report fs csv_file csvOpenOk data
    let sent := send_email_report (html_rows disp data) to_email subject
      env.csvRead csv_file env.smtpOk
    (.normal, fs2, sent)

/-- An environment with one running instance whose `describe_tags` call
raises. -/
def tagsFailEnv : Env :=
  { pages := .ok [⟨[⟨[⟨"i-0sick", ⟨"running"⟩, "t3.micro"⟩]⟩]⟩]
    tagsFetchError := some "ConnectionError"
    allTags := []
    describeInstance := fun _ => .ok []
    metrics := fun _ => .ok []
    csvRead := .ok []
    smtpOk := true }

/-- C9 (code bug): `main` maps normal completion to 0 and both interruption
and an unhandled exception to 1 - but the claim that per-stage exceptions
never reach the top-level handler fails as written: with one running instance
whose tag lookup raises, the NameError from `get_instance_name` escapes the
collection stage, reaches `main` and the process exits 1. -/
theorem c9_exit_codes (msg : String) :
    mainExitCode .normal = 0 ∧
    mainExitCode .keyboardInterrupt = 1 ∧
    mainExitCode (.exception msg) = 1 ∧
    (run tagsFailEnv (fun _ => none) "report.csv" "ops@example.com" "subj"
      true (fun _ => "")).1 =
      .exception "NameError: name re is not defined" ∧
    mainExitCode
      (run tagsFailEnv (fun _ => none) "report.csv" "ops@example.com" "subj"
        true (fun _ => "")).1 = 1 := by
  exact ⟨rfl, rfl, rfl, rfl, rfl⟩

/-- C10: when reading the CSV file for the attachment raises, the handler
catches it and no message at all is handed to the SMTP transport - the HTML
body is not delivered on its own - while the run's outcome is the same as if
the read had succeeded. -/
theorem c10_csv_read_failure_suppresses_email
    (html to_email subject csvBasename e : String) (smtpOk : Bool)
    (env : Env) (fs : FileSystem) (csv_file : String) (openOk : Bool)
    (disp : ℚ → String) :
    send_email_report html to_email subject (.error e) csvBasename smtpOk =
      [] ∧
    (run { env with csvRead := .error e } fs csv_file to_email subject openOk
      disp).2.2 = [] ∧
    (run { env with csvRead := .error e } fs csv_file to_email subject openOk
      disp).1 = (run env fs csv_file to_email subject openOk disp).1 := by
  have hc : collect_all_instances_data { env with csvRead := .error e } =
      collect_all_instances_data env := rfl
  refine ⟨rfl, ?_, ?_⟩ <;>
    · unfold run
      rw [hc]
      cases collect_all_instances_data env <;>
        simp [send_email_report]

end EC2Report
